import Mathlib

/-!
# Verification of the progress-notification / reconnection core

Shallow embedding of the WebSocket progress-notification subsystem of the
`IB_Hackathon_Hugs_for_Bugs` repository:

* `src/frontend/src/lib/socket.ts` — `ProcessingMessage`, `parseMessage`;
* `src/frontend/src/hooks/useProcessingSocket.ts` — the client state machine
  (`cleanup`, `handleMessage`, `connectSocket`, `startProcessing` and the
  socket event handlers `socket.onopen` / `socket.onclose`);
* `src/frontend/src/components/app/project-details/ReviewFeedbackModal.tsx`
  and `src/frontend/src/routes/app/$projectId/details.tsx` — the
  reclassification flow (`handleSubmit`, `handleReclassifyStart`).

The browser client is modelled as an explicit state record plus a total
`step` function over an event alphabet (start click, socket open/close,
inbound frame, retry-timer firing, HTTP-trigger resolution).  React
`useState`/`useRef` cells are modelled as record fields updated in place
(the standard idealisation: a `setX` call is an immediate field update and
every handler reads the current value).  A client-initiated
`WebSocket.close()` is modelled as immediately marking the socket closed;
the `onclose` callback is modelled as firing for remote / unexpected
closures, i.e. for sockets that are still live when the close event
arrives.  Wall-clock time is abstracted away: a scheduled `setTimeout`
reconnection is a pending-timer token that may fire later as an event
(the source never cancels these timers, so a token persists until fired).
-/

/-- The `status` field of a wire message (`socket.ts`, union type
`"processing" | "completed" | "error"`). -/
inductive Status
  | processing
  | completed
  | error
deriving DecidableEq

/-- Embedding of `ProcessingMessage` from `src/frontend/src/lib/socket.ts`. -/
structure ProcessingMessage where
  project_id : Int
  status : Status
  message : String
  progress : Int
deriving DecidableEq

/-- An inbound WebSocket text frame: either its payload is valid JSON of the
`ProcessingMessage` shape, or `JSON.parse` throws on it.  (The source casts
the parsed value with `as ProcessingMessage` without validating, so at this
embedding level a parseable frame simply carries the message.) -/
inductive Frame
  | wellFormed (m : ProcessingMessage)
  | malformed (raw : String)
deriving DecidableEq

/-- Embedding of `parseMessage` from `src/frontend/src/lib/socket.ts`:
`try { return JSON.parse(event.data) } catch { console.error(...); return null }`. -/
def parseMessage : Frame → Option ProcessingMessage
  | .wellFormed m => some m
  | .malformed _ => none

/-- Lifecycle phase of one `WebSocket` object created by
`createProcessingSocket`. -/
inductive SockPhase
  | connecting
  | opened
  | closed
deriving DecidableEq

/-- A socket is live while it has not been closed (by either side). -/
def SockPhase.isLive : SockPhase → Bool
  | .closed => false
  | _ => true

/-- Observable side effects emitted by the hook's handlers (toasts,
navigation, and the process-project HTTP trigger `processProject.mutate`). -/
inductive ClientAction
  | toastConnected
  | triggerSend
  | toastStarted
  | toastProgress
  | toastSuccess
  | navigateDetails
  | toastProcessFailed
  | toastRetrying
  | toastConnFailed
  | toastTriggerFailed
deriving DecidableEq

/-- Recogniser for `ClientAction.triggerSend`, for counting HTTP triggers in a log. -/
def ClientAction.isTriggerSend : ClientAction → Bool
  | .triggerSend => true
  | _ => false

/-- The client-side connection state of one `useProcessingSocket` instance:
`isProcessing` / `progress` (React state), `retryCountRef` / `socketRef`
(refs), plus the bookkeeping the embedding needs to replay event traces:
the phases of all sockets created so far (`socketRef` indexes into this
list), the number of scheduled-but-unfired reconnect timers, and the number
of process-project HTTP triggers still awaiting a response. -/
structure ClientState where
  isProcessing : Bool
  progress : Int
  retryCount : Nat
  socketRef : Option Nat
  sockets : List SockPhase
  pendingRetries : Nat
  triggersInFlight : Nat
deriving DecidableEq

/-- State before the hook is ever used. -/
def initState : ClientState :=
  { isProcessing := false, progress := 0, retryCount := 0, socketRef := none
    sockets := [], pendingRetries := 0, triggersInFlight := 0 }

/-- Embedding of `cleanup` (useProcessingSocket.ts lines 30–38): close the current socket
if any, null the ref, and reset `isProcessing`, `progress`, `retryCount`. -/
def cleanup (s : ClientState) : ClientState :=
  let sockets :=
    match s.socketRef with
    | some i => s.sockets.set i .closed
    | none => s.sockets
  { s with sockets := sockets, socketRef := none,
           isProcessing := false, progress := 0, retryCount := 0 }

/-- Embedding of `handleMessage` (useProcessingSocket.ts lines 40–81): parse the frame,
bail out on `null`, record the progress value, then branch on `status`
(`processing` → loading toast; `completed` → success toast, `cleanup`,
navigate to the details page; `error` → error toast, `cleanup`). -/
def handleMessage (s : ClientState) (f : Frame) : ClientState × List ClientAction :=
  match parseMessage f with
  | none => (s, [])
  | some msg =>
    let s := { s with progress := msg.progress }
    match msg.status with
    | .processing => (s, [.toastProgress])
    | .completed => (cleanup s, [.toastSuccess, .navigateDetails])
    | .error => (cleanup s, [.toastProcessFailed])

/-- Embedding of the `connectSocket` body, creation part (useProcessingSocket.ts lines 85–87):
`createProcessingSocket(projectId)` allocates a fresh socket and
`socketRef.current = socket` overwrites the ref — the previous handle is
not closed. -/
def connectSocket (s : ClientState) : ClientState :=
  { s with sockets := s.sockets ++ [.connecting],
           socketRef := some s.sockets.length }

/-- Body of `socket.onopen` (useProcessingSocket.ts lines 89–114): reset
`retryCountRef` to 0, show the connected toast, and issue the
process-project HTTP trigger (`processProject.mutate`).  The socket `i`
that fired the event becomes open. -/
def onOpen (s : ClientState) (i : Nat) : ClientState × List ClientAction :=
  ({ s with sockets := s.sockets.set i .opened, retryCount := 0,
            triggersInFlight := s.triggersInFlight + 1 },
   [.toastConnected, .triggerSend])

/-- Body of `socket.onclose` (useProcessingSocket.ts lines 122–145), for a
socket `i` that closed: if `isProcessing && retryCount < maxRetries`,
increment the retry count, toast a numbered warning, and schedule a
reconnect via `setTimeout` (a pending-timer token); else if
`retryCount >= maxRetries`, toast the failure and `cleanup`; else nothing. -/
def onClose (maxRetries : Nat) (s : ClientState) (i : Nat) :
    ClientState × List ClientAction :=
  let s := { s with sockets := s.sockets.set i .closed }
  if s.isProcessing = true ∧ s.retryCount < maxRetries then
    ({ s with retryCount := s.retryCount + 1,
              pendingRetries := s.pendingRetries + 1 }, [.toastRetrying])
  else if maxRetries ≤ s.retryCount then
    (cleanup s, [.toastConnFailed])
  else
    (s, [])

/-- Embedding of `startProcessing` (useProcessingSocket.ts lines 160–168): no-op while
already processing; otherwise set `isProcessing`, reset `progress` and
`retryCountRef`, and call `connectSocket` through the ref. -/
def startProcessing (s : ClientState) : ClientState :=
  if s.isProcessing = true then s
  else connectSocket { s with isProcessing := true, progress := 0, retryCount := 0 }

/-- Events the environment can deliver to one hook instance: the user
clicking start, socket lifecycle events on a given socket, an inbound
frame, a scheduled reconnect timer firing, and the HTTP trigger resolving
(success runs the `onSuccess` toast; failure runs the `onError` handler,
which toasts and calls `cleanup` — lines 100–112). -/
inductive Event
  | start
  | openEvt (i : Nat)
  | closeEvt (i : Nat)
  | msgEvt (i : Nat) (f : Frame)
  | timer
  | trigOk
  | trigErr
deriving DecidableEq

/-- One step of the client: dispatch an event to the handler the source
installs for it.  Socket events are only deliverable for sockets in the
right phase (`open` fires on a connecting socket, `close` on a live one,
messages arrive on an open one); events that cannot occur leave the state
unchanged. -/
def step (maxRetries : Nat) (s : ClientState) (e : Event) :
    ClientState × List ClientAction :=
  match e with
  | .start => (startProcessing s, [])
  | .openEvt i =>
    match s.sockets[i]? with
    | some .connecting => onOpen s i
    | _ => (s, [])
  | .closeEvt i =>
    match s.sockets[i]? with
    | some .connecting => onClose maxRetries s i
    | some .opened => onClose maxRetries s i
    | _ => (s, [])
  | .msgEvt i f =>
    match s.sockets[i]? with
    | some .opened => handleMessage s f
    | _ => (s, [])
  | .timer =>
    if s.pendingRetries = 0 then (s, [])
    else (connectSocket { s with pendingRetries := s.pendingRetries - 1 }, [])
  | .trigOk =>
    if s.triggersInFlight = 0 then (s, [])
    else ({ s with triggersInFlight := s.triggersInFlight - 1 }, [.toastStarted])
  | .trigErr =>
    if s.triggersInFlight = 0 then (s, [])
    else (cleanup { s with triggersInFlight := s.triggersInFlight - 1 },
          [.toastTriggerFailed])

/-- Final state after processing a list of events in arrival order. -/
def runS (maxRetries : Nat) (s : ClientState) : List Event → ClientState
  | [] => s
  | e :: es => runS maxRetries (step maxRetries s e).1 es

/-- Concatenated log of actions emitted while processing a list of events. -/
def runA (maxRetries : Nat) (s : ClientState) : List Event → List ClientAction
  | [] => []
  | e :: es => (step maxRetries s e).2 ++ runA maxRetries (step maxRetries s e).1 es

/-- Number of live (not yet closed) sockets the client has created. -/
def liveCount (s : ClientState) : Nat :=
  (s.sockets.filter SockPhase.isLive).length

/-! ## The reclassification flow

`ReviewFeedbackModal.handleSubmit` (ReviewFeedbackModal.tsx lines 24–51)
first awaits the reclassify HTTP POST (`reclassifyMutation.mutateAsync`)
and only on its success calls `onSubmitStart()`, which
`ProjectDetails.Header` forwards to `handleReclassifyStart`
(details.tsx lines 72–118); that callback is what creates and subscribes
the progress WebSocket.  The flow is straight-line, so it is embedded as
the ordered list of externally visible actions it performs. -/

/-- Externally visible actions of the reclassification submit flow. -/
inductive RAction
  | reclassifyTrigger
  | toastEmptyFeedback
  | setReclassifying
  | setStatusConnecting
  | socketCreate
  | resetFeedback
  | closeModal
  | toastStartedInfo
  | toastSubmitFailed
deriving DecidableEq

/-- Embedding of `handleReclassifyStart` (details.tsx lines 72–118):
`setIsReclassifying(true)`, `setReclassifyStatus("Connecting...")`, then
`createProcessingSocket(numericProjectId)` and handler assignment.  (The
socket handlers it installs only update the status text / refetch caches;
in particular its `onopen` issues no HTTP request.) -/
def handleReclassifyStart : List RAction :=
  [.setReclassifying, .setStatusConnecting, .socketCreate]

/-- JavaScript whitespace for `String.prototype.trim` (the characters that
matter here; the frontend only ever checks user-typed feedback). -/
def jsWhite (c : Char) : Bool :=
  c = ' ' ∨ c = '\t' ∨ c = '\n' ∨ c = '\r'

/-- Embedding of JavaScript `String.prototype.trim`: drop leading and
trailing whitespace. -/
def jsTrim (s : String) : String :=
  ⟨((s.data.dropWhile jsWhite).reverse.dropWhile jsWhite).reverse⟩

/-- Embedding of `handleSubmit` (ReviewFeedbackModal.tsx lines 24–51): reject empty
feedback; otherwise send the reclassify HTTP trigger and await it
(`triggerSucceeds` tells how the promise resolves); on success run
`onSubmitStart()` (= `handleReclassifyStart`), clear the textarea, close
the modal and toast; on rejection toast the failure. -/
def handleSubmit (feedback : String) (triggerSucceeds : Bool) : List RAction :=
  if jsTrim feedback = "" then [.toastEmptyFeedback]
  else if triggerSucceeds then
    .reclassifyTrigger ::
      (handleReclassifyStart ++ [.resetFeedback, .closeModal, .toastStartedInfo])
  else [.reclassifyTrigger, .toastSubmitFailed]

/-! ## The server-side publisher, modelled from the spec

The backend (FastAPI WebSocket registry + Celery task) is not present
under `src/`; only its browser-side consumers are.  Per the spec it is
modelled here at the interface boundary. -/

/-- Modelled from the spec: the background task driving one job run
(spec §4.2, §7, §8 — the Celery `process_project`/`reclassify` task, whose
source is not in the repository snapshot).  The task works through a list
of phases, each a `(message, progress)` pair together with whether that
phase succeeds; it publishes a `processing` event for each phase it
completes, publishes a single terminal `error` event and exits at the
first failing phase ("must publish a terminal `error` event with a
descriptive `message` before exiting", §7), and publishes a single
terminal `completed` event when all phases succeed. -/
def runJob (pid : Int) : List (String × Int × Bool) → List ProcessingMessage
  | [] => [⟨pid, .completed, "Processing completed", 100⟩]
  | (msg, prog, ok) :: rest =>
    if ok then ⟨pid, .processing, msg, prog⟩ :: runJob pid rest
    else [⟨pid, .error, msg, prog⟩]

/-! ## Scenario traces -/

/-- Happy-path scenario (spec §8.7): start for project 42, socket opens,
trigger accepted, then processing 10 %, processing 60 %, completed 100 %. -/
def happyTrace : List Event :=
  [.start, .openEvt 0, .trigOk,
   .msgEvt 0 (.wellFormed ⟨42, .processing, "Extracting text", 10⟩),
   .msgEvt 0 (.wellFormed ⟨42, .processing, "Classifying", 60⟩),
   .msgEvt 0 (.wellFormed ⟨42, .completed, "Done", 100⟩)]

/-- Trace of `n` consecutive connection failures: each round, the current socket
closes unexpectedly and the scheduled reconnect timer then fires. -/
def exhaustSteps (n : Nat) : List Event :=
  .start :: (List.range n).flatMap fun j => [.closeEvt j, .timer]

/-- Retry exhaustion for `maxRetries = N`: the initial connection and all
`N` scheduled reconnections close unexpectedly — `N + 1` closures in
total, none preceded by a successful open. -/
def exhaustTrace (N : Nat) : List Event :=
  exhaustSteps N ++ [.closeEvt N]

/-- An attempt that survives `k` recovered disconnections: the socket
opens, and `k` times in a row it closes unexpectedly, the retry timer
fires and the replacement socket opens again. -/
def recTrace (k : Nat) : List Event :=
  [.start, .openEvt 0] ++
    (List.range k).flatMap fun j => [.closeEvt j, .timer, .openEvt (j + 1)]

/-- Stale-retry-timer interleaving: the socket opens (trigger sent), drops
unexpectedly (a reconnect is scheduled), the trigger's HTTP response comes
back as an error (`onError` runs `cleanup`, which does not cancel the
scheduled timer), the user starts again, and then the stale timer fires. -/
def staleTimerTrace : List Event :=
  [.start, .openEvt 0, .closeEvt 0, .trigErr, .start, .timer]

/-! ## Retry exhaustion: intermediate states -/

/-- Client state after the start click and `n` failed connection rounds
(`n` unexpected closures, each followed by the scheduled reconnect firing):
sockets `0 … n-1` closed, socket `n` connecting, `retryCountRef = n`. -/
def exhaustMid (n : Nat) : ClientState :=
  { isProcessing := true, progress := 0, retryCount := n, socketRef := some n
    sockets := List.replicate n .closed ++ [.connecting], pendingRetries := 0
    triggersInFlight := 0 }

/-! ## Recovered disconnections: intermediate states -/

/-- Client state after the start click, the first open, and `n` recovered
disconnection rounds (unexpected closure, reconnect timer, successful
reopen): sockets `0 … n-1` closed, socket `n` open, `retryCountRef` back
at 0, `n + 1` process-project triggers issued so far. -/
def recMid (n : Nat) : ClientState :=
  { isProcessing := true, progress := 0, retryCount := 0, socketRef := some n
    sockets := List.replicate n .closed ++ [.opened], pendingRetries := 0
    triggersInFlight := n + 1 }

/-! ## At most one live socket, absent trigger failures

In every reachable client state of a trace that contains no failing
process-project trigger, the created sockets form one of three shapes:
all closed with no reconnect scheduled (idle / after terminal cleanup),
all closed with exactly one reconnect scheduled (between an unexpected
closure and its timer), or all closed except the current, referenced one
(connected / connecting).  A failing trigger breaks this because its
`cleanup` does not cancel the scheduled `setTimeout`. -/

def ConnInvA (s : ClientState) : Prop :=
  (∃ k, s.sockets = List.replicate k SockPhase.closed) ∧
    s.pendingRetries = 0 ∧ s.isProcessing = false

def ConnInvB (s : ClientState) : Prop :=
  (∃ k, s.sockets = List.replicate k SockPhase.closed) ∧
    s.pendingRetries = 1 ∧ s.isProcessing = true

def ConnInvC (s : ClientState) : Prop :=
  ∃ k ph, SockPhase.isLive ph = true ∧
    s.sockets = List.replicate k SockPhase.closed ++ [ph] ∧
    s.pendingRetries = 0 ∧ s.isProcessing = true ∧ s.socketRef = some k

def ConnInv (s : ClientState) : Prop := ConnInvA s ∨ ConnInvB s ∨ ConnInvC s


/-! ## Run lemmas -/

theorem runS_append (m : Nat) (s : ClientState) (es fs : List Event) :
    runS m s (es ++ fs) = runS m (runS m s es) fs := by
  induction es generalizing s with
  | nil => rfl
  | cons e es ih => simp [runS, ih]

theorem runA_append (m : Nat) (s : ClientState) (es fs : List Event) :
    runA m s (es ++ fs) = runA m s es ++ runA m (runS m s es) fs := by
  induction es generalizing s with
  | nil => rfl
  | cons e es ih => simp [runA, runS, ih]

/-! ## List helper lemmas -/

theorem replicate_append_get_last (n : Nat) (c x : SockPhase) :
    (List.replicate n c ++ [x])[n]? = some x := by
  induction n with
  | zero => rfl
  | succ n ih => simp [List.replicate_succ, ih]

theorem replicate_append_get_lt (n i : Nat) (c x : SockPhase) (h : i < n) :
    (List.replicate n c ++ [x])[i]? = some c := by
  induction n generalizing i with
  | zero => omega
  | succ n ih =>
    cases i with
    | zero => simp [List.replicate_succ]
    | succ i => simpa [List.replicate_succ] using ih i (by omega)

theorem replicate_append_set_last (n : Nat) (c x y : SockPhase) :
    (List.replicate n c ++ [x]).set n y = List.replicate n c ++ [y] := by
  induction n with
  | zero => rfl
  | succ n ih => simp [List.replicate_succ, ih]

theorem set_replicate_self (n i : Nat) (c : SockPhase) :
    (List.replicate n c).set i c = List.replicate n c := by
  induction n generalizing i with
  | zero => rfl
  | succ n ih =>
    cases i with
    | zero => simp [List.replicate_succ]
    | succ i => simp [List.replicate_succ, ih]

theorem filter_isLive_replicate_closed (n : Nat) :
    (List.replicate n SockPhase.closed).filter SockPhase.isLive = [] := by
  induction n with
  | zero => rfl
  | succ n ih => simp [List.replicate_succ, List.filter, SockPhase.isLive, ih]

theorem runS_exhaustSteps (N n : Nat) (h : n ≤ N) :
    runS N initState (exhaustSteps n) = exhaustMid n := by
  induction n with
  | zero => rfl
  | succ n ih =>
    have hn : n < N := Nat.lt_of_succ_le h
    have hsplit : exhaustSteps (n + 1) =
        exhaustSteps n ++ [.closeEvt n, .timer] := by
      simp [exhaustSteps, List.range_succ]
    rw [hsplit, runS_append, ih (Nat.le_of_lt hn)]
    simp [runS, step, exhaustMid, replicate_append_get_last, onClose, hn,
      replicate_append_set_last, connectSocket, cleanup, List.replicate_succ']

theorem recTrace_succ (n : Nat) :
    recTrace (n + 1) =
      recTrace n ++ [.closeEvt n, .timer, .openEvt (n + 1)] := by
  simp [recTrace, List.range_succ]

theorem step_close_retry (m n : Nat) (ph : SockPhase) (hph : ph.isLive = true)
    (pr : Int) (rc : Nat) (oref : Option Nat) (pend inflight : Nat)
    (hlt : rc < m) :
    step m ⟨true, pr, rc, oref, List.replicate n .closed ++ [ph], pend, inflight⟩
        (.closeEvt n) =
      (⟨true, pr, rc + 1, oref, List.replicate (n + 1) .closed, pend + 1,
        inflight⟩, [.toastRetrying]) := by
  cases ph with
  | closed => simp [SockPhase.isLive] at hph
  | connecting =>
    simp [step, replicate_append_get_last, onClose, replicate_append_set_last,
      hlt, List.replicate_succ']
  | opened =>
    simp [step, replicate_append_get_last, onClose, replicate_append_set_last,
      hlt, List.replicate_succ']

theorem step_timer_fire (m : Nat) (b : Bool) (pr : Int) (rc : Nat)
    (oref : Option Nat) (socks : List SockPhase) (pend inflight : Nat) :
    step m ⟨b, pr, rc, oref, socks, pend + 1, inflight⟩ .timer =
      (⟨b, pr, rc, some socks.length, socks ++ [.connecting], pend, inflight⟩,
       []) := by
  simp [step, connectSocket]

theorem step_open_last (m n : Nat) (b : Bool) (pr : Int) (rc : Nat)
    (oref : Option Nat) (pend inflight : Nat) :
    step m ⟨b, pr, rc, oref, List.replicate n .closed ++ [.connecting], pend,
        inflight⟩ (.openEvt n) =
      (⟨b, pr, 0, oref, List.replicate n .closed ++ [.opened], pend,
        inflight + 1⟩, [.toastConnected, .triggerSend]) := by
  simp [step, replicate_append_get_last, onOpen, replicate_append_set_last]

theorem runS_recTrace (m n : Nat) (hm : 1 ≤ m) :
    runS m initState (recTrace n) = recMid n := by
  induction n with
  | zero => rfl
  | succ n ih =>
    have h0 : (0 : Nat) < m := hm
    rw [recTrace_succ, runS_append, ih]
    simp [runS, recMid, step_close_retry, step_timer_fire, step_open_last, h0,
      SockPhase.isLive]

theorem runA_recTrace_triggers (m n : Nat) (hm : 1 ≤ m) :
    (runA m initState (recTrace n)).countP ClientAction.isTriggerSend
      = n + 1 := by
  induction n with
  | zero => rfl
  | succ n ih =>
    have h0 : (0 : Nat) < m := hm
    rw [recTrace_succ, runA_append, runS_recTrace m n hm, List.countP_append, ih]
    simp [runA, runS, recMid, step_close_retry, step_timer_fire, step_open_last,
      h0, SockPhase.isLive, List.countP_cons, ClientAction.isTriggerSend]

/-! ## The HTTP trigger is emitted by the open handler only -/

theorem onClose_no_trigger (m : Nat) (s : ClientState) (i : Nat) :
    ClientAction.triggerSend ∉ (onClose m s i).2 := by
  simp only [onClose]
  split
  · simp
  · split <;> simp

theorem handleMessage_no_trigger (s : ClientState) (f : Frame) :
    ClientAction.triggerSend ∉ (handleMessage s f).2 := by
  rcases f with msg | raw
  · rcases msg with ⟨pid, st, txt, prog⟩
    cases st <;> simp [handleMessage, parseMessage]
  · simp [handleMessage, parseMessage]

theorem triggerSend_only_on_open (m : Nat) (s : ClientState) (e : Event)
    (h : ClientAction.triggerSend ∈ (step m s e).2) : ∃ i, e = .openEvt i := by
  cases e with
  | openEvt i => exact ⟨i, rfl⟩
  | start => simp [step] at h
  | closeEvt i =>
    exfalso
    rcases hg : s.sockets[i]? with _ | ph
    · simp [step, hg] at h
    · cases ph <;> simp only [step, hg] at h
      · exact onClose_no_trigger m s i h
      · exact onClose_no_trigger m s i h
      · simp at h
  | msgEvt i f =>
    exfalso
    rcases hg : s.sockets[i]? with _ | ph
    · simp [step, hg] at h
    · cases ph <;> simp only [step, hg] at h
      · simp at h
      · exact handleMessage_no_trigger s f h
      · simp at h
  | timer =>
    simp only [step] at h
    split at h <;> simp at h
  | trigOk =>
    simp only [step] at h
    split at h <;> simp at h
  | trigErr =>
    simp only [step] at h
    split at h <;> simp at h

theorem replicate_closed_get_cases (k i : Nat) :
    (List.replicate k SockPhase.closed)[i]? = none ∨
    (List.replicate k SockPhase.closed)[i]? = some .closed := by
  rw [List.getElem?_replicate]
  by_cases h : i < k
  · right; simp [h]
  · left; simp [h]

theorem replicate_append_get_cases (k i : Nat) (ph : SockPhase) :
    (List.replicate k SockPhase.closed ++ [ph])[i]? = none ∨
    (List.replicate k SockPhase.closed ++ [ph])[i]? = some .closed ∨
    (i = k ∧ (List.replicate k SockPhase.closed ++ [ph])[i]? = some ph) := by
  rcases Nat.lt_trichotomy i k with h | rfl | h
  · right; left; exact replicate_append_get_lt k i _ _ h
  · right; right; exact ⟨rfl, replicate_append_get_last i _ _⟩
  · left
    apply List.getElem?_eq_none
    simp
    omega

theorem step_preserves_ConnInv (m : Nat) (s : ClientState) (e : Event)
    (he : e ≠ Event.trigErr) (h : ConnInv s) : ConnInv (step m s e).1 := by
  obtain ⟨p, pr, rc, oref, socks, pend, infl⟩ := s
  rcases h with ⟨⟨k, hs⟩, hpend, hp⟩ | ⟨⟨k, hs⟩, hpend, hp⟩ |
      ⟨k, ph, hph, hs, hpend, hp, href⟩ <;> subst hs <;> subst hpend <;> subst hp
  -- shape A: idle, all sockets closed
  · cases e with
    | start =>
      simp [step, startProcessing, connectSocket]
      exact Or.inr (Or.inr ⟨k, .connecting, rfl, rfl, rfl, rfl, rfl⟩)
    | openEvt i =>
      rcases replicate_closed_get_cases k i with hg | hg <;> simp [step, hg] <;>
        exact Or.inl ⟨⟨k, rfl⟩, rfl, rfl⟩
    | closeEvt i =>
      rcases replicate_closed_get_cases k i with hg | hg <;> simp [step, hg] <;>
        exact Or.inl ⟨⟨k, rfl⟩, rfl, rfl⟩
    | msgEvt i f =>
      rcases replicate_closed_get_cases k i with hg | hg <;> simp [step, hg] <;>
        exact Or.inl ⟨⟨k, rfl⟩, rfl, rfl⟩
    | timer =>
      simp [step]
      exact Or.inl ⟨⟨k, rfl⟩, rfl, rfl⟩
    | trigOk =>
      simp only [step]
      split
      · exact Or.inl ⟨⟨k, rfl⟩, rfl, rfl⟩
      · exact Or.inl ⟨⟨k, rfl⟩, rfl, rfl⟩
    | trigErr => exact absurd rfl he
  -- shape B: all sockets closed, one reconnect scheduled
  · cases e with
    | start =>
      simp [step, startProcessing]
      exact Or.inr (Or.inl ⟨⟨k, rfl⟩, rfl, rfl⟩)
    | openEvt i =>
      rcases replicate_closed_get_cases k i with hg | hg <;> simp [step, hg] <;>
        exact Or.inr (Or.inl ⟨⟨k, rfl⟩, rfl, rfl⟩)
    | closeEvt i =>
      rcases replicate_closed_get_cases k i with hg | hg <;> simp [step, hg] <;>
        exact Or.inr (Or.inl ⟨⟨k, rfl⟩, rfl, rfl⟩)
    | msgEvt i f =>
      rcases replicate_closed_get_cases k i with hg | hg <;> simp [step, hg] <;>
        exact Or.inr (Or.inl ⟨⟨k, rfl⟩, rfl, rfl⟩)
    | timer =>
      simp [step, connectSocket]
      exact Or.inr (Or.inr ⟨k, .connecting, rfl, rfl, rfl, rfl, rfl⟩)
    | trigOk =>
      simp only [step]
      split
      · exact Or.inr (Or.inl ⟨⟨k, rfl⟩, rfl, rfl⟩)
      · exact Or.inr (Or.inl ⟨⟨k, rfl⟩, rfl, rfl⟩)
    | trigErr => exact absurd rfl he
  -- shape C: one live socket, the referenced one
  · subst href
    cases e with
    | start =>
      simp [step, startProcessing]
      exact Or.inr (Or.inr ⟨k, ph, hph, rfl, rfl, rfl, rfl⟩)
    | openEvt i =>
      rcases replicate_append_get_cases k i ph with hg | hg | ⟨rfl, hg⟩
      · simp [step, hg]
        exact Or.inr (Or.inr ⟨k, ph, hph, rfl, rfl, rfl, rfl⟩)
      · simp [step, hg]
        exact Or.inr (Or.inr ⟨k, ph, hph, rfl, rfl, rfl, rfl⟩)
      · cases ph with
        | closed => simp [SockPhase.isLive] at hph
        | connecting =>
          simp [step, hg, onOpen, replicate_append_set_last]
          exact Or.inr (Or.inr ⟨i, .opened, rfl, rfl, rfl, rfl, rfl⟩)
        | opened =>
          simp [step, hg]
          exact Or.inr (Or.inr ⟨i, .opened, rfl, rfl, rfl, rfl, rfl⟩)
    | closeEvt i =>
      rcases replicate_append_get_cases k i ph with hg | hg | ⟨rfl, hg⟩
      · simp [step, hg]
        exact Or.inr (Or.inr ⟨k, ph, hph, rfl, rfl, rfl, rfl⟩)
      · simp [step, hg]
        exact Or.inr (Or.inr ⟨k, ph, hph, rfl, rfl, rfl, rfl⟩)
      · have hbranch : ConnInv (onClose m
            ⟨true, pr, rc, some i,
              List.replicate i SockPhase.closed ++ [ph], 0, infl⟩ i).1 := by
          simp only [onClose, replicate_append_set_last]
          split
          · exact Or.inr (Or.inl
              ⟨⟨i + 1, by simp [List.replicate_succ']⟩, rfl, rfl⟩)
          · split
            · simp only [cleanup, replicate_append_set_last]
              exact Or.inl
                ⟨⟨i + 1, by simp [List.replicate_succ']⟩, rfl, rfl⟩
            · rename_i h1 h2
              exact absurd (Nat.le_of_not_lt fun hlt => h1 ⟨trivial, hlt⟩) h2
        cases ph with
        | closed => simp [SockPhase.isLive] at hph
        | connecting => simpa [step, hg] using hbranch
        | opened => simpa [step, hg] using hbranch
    | msgEvt i f =>
      rcases replicate_append_get_cases k i ph with hg | hg | ⟨rfl, hg⟩
      · simp [step, hg]
        exact Or.inr (Or.inr ⟨k, ph, hph, rfl, rfl, rfl, rfl⟩)
      · simp [step, hg]
        exact Or.inr (Or.inr ⟨k, ph, hph, rfl, rfl, rfl, rfl⟩)
      · cases ph with
        | closed => simp [SockPhase.isLive] at hph
        | connecting =>
          simp [step, hg]
          exact Or.inr (Or.inr ⟨i, .connecting, rfl, rfl, rfl, rfl, rfl⟩)
        | opened =>
          rcases f with msg | raw
          · rcases msg with ⟨pid, st, txt, prog⟩
            cases st with
            | processing =>
              simp [step, hg, handleMessage, parseMessage]
              exact Or.inr (Or.inr ⟨i, .opened, rfl, rfl, rfl, rfl, rfl⟩)
            | completed =>
              simp [step, hg, handleMessage, parseMessage, cleanup,
                replicate_append_set_last]
              exact Or.inl ⟨⟨i + 1, by simp [List.replicate_succ']⟩, rfl, rfl⟩
            | error =>
              simp [step, hg, handleMessage, parseMessage, cleanup,
                replicate_append_set_last]
              exact Or.inl ⟨⟨i + 1, by simp [List.replicate_succ']⟩, rfl, rfl⟩
          · simp [step, hg, handleMessage, parseMessage]
            exact Or.inr (Or.inr ⟨i, .opened, rfl, rfl, rfl, rfl, rfl⟩)
    | timer =>
      simp [step]
      exact Or.inr (Or.inr ⟨k, ph, hph, rfl, rfl, rfl, rfl⟩)
    | trigOk =>
      simp only [step]
      split
      · exact Or.inr (Or.inr ⟨k, ph, hph, rfl, rfl, rfl, rfl⟩)
      · exact Or.inr (Or.inr ⟨k, ph, hph, rfl, rfl, rfl, rfl⟩)
    | trigErr => exact absurd rfl he

theorem ConnInv_runS (m : Nat) (s : ClientState) (es : List Event)
    (hs : ConnInv s) (he : ∀ e ∈ es, e ≠ Event.trigErr) :
    ConnInv (runS m s es) := by
  induction es generalizing s with
  | nil => exact hs
  | cons e es ih =>
    exact ih (step m s e).1
      (step_preserves_ConnInv m s e (he e (by simp)) hs)
      (fun x hx => he x (by simp [hx]))

theorem ConnInv_initState : ConnInv initState :=
  Or.inl ⟨⟨0, rfl⟩, rfl, rfl⟩

theorem liveCount_le_one_of_ConnInv (s : ClientState) (h : ConnInv s) :
    liveCount s ≤ 1 := by
  rcases h with ⟨⟨k, hs⟩, -, -⟩ | ⟨⟨k, hs⟩, -, -⟩ |
      ⟨k, ph, hph, hs, -, -, -⟩ <;>
    simp [liveCount, hs, List.filter_append, filter_isLive_replicate_closed]
  cases ph <;> simp [SockPhase.isLive]

/-! ## Claim theorems -/

/-- Claim C1, counterexample.  The claim says the HTTP trigger (process or
reclassify) is issued only after the attempt's socket has reported open, for
every attempt.  In the reclassification flow this is false at a concrete
input: submitting the feedback below performs the reclassify HTTP trigger
as its very first action, and only creates the progress socket three
actions later — the trigger precedes socket creation, hence precedes any
open event of that socket. -/
theorem c1_counterexample :
    handleSubmit "Move the bank statement to Bankbescheinigungen" true =
      [.reclassifyTrigger, .setReclassifying, .setStatusConnecting,
       .socketCreate, .resetFeedback, .closeModal, .toastStartedInfo] ∧
    (handleSubmit "Move the bank statement to Bankbescheinigungen" true).head?
      = some .reclassifyTrigger := by decide

/-- Claim C1, amended.  The trigger-after-open ordering holds for the
process-project path: in the `useProcessingSocket` state machine the HTTP
trigger is emitted only by open events (never before the socket reports
open).  The reclassification flow instead issues its HTTP trigger first,
before creating the socket: for every non-empty feedback, the first action
of `handleSubmit` is the reclassify trigger. -/
theorem c1_amended :
    (∀ (m : Nat) (s : ClientState) (e : Event),
      ClientAction.triggerSend ∈ (step m s e).2 → ∃ i, e = .openEvt i) ∧
    (∀ (fb : String) (ok : Bool), jsTrim fb ≠ "" →
      ∃ rest, handleSubmit fb ok = .reclassifyTrigger :: rest) := by
  constructor
  · exact triggerSend_only_on_open
  · intro fb ok h
    cases ok with
    | false => exact ⟨[.toastSubmitFailed], by simp [handleSubmit, h]⟩
    | true =>
      exact ⟨handleReclassifyStart ++
        [.resetFeedback, .closeModal, .toastStartedInfo],
        by simp [handleSubmit, h]⟩

/-- Claim C1, witness for the amended theorem at concrete inputs. -/
theorem c1_witness :
    (∃ i, Event.openEvt 0 = Event.openEvt i) ∧
    (∃ rest, handleSubmit "Fix it" true = .reclassifyTrigger :: rest) :=
  ⟨c1_amended.1 3 ⟨true, 0, 0, some 0, [.connecting], 0, 0⟩ (.openEvt 0)
      (by decide),
   c1_amended.2 "Fix it" true (by decide)⟩

/-- Claim C2, counterexample.  With `maxRetries = 3`, after 3 consecutive
unexpected closures (and the scheduled reconnects firing) the client has
created a 4th socket — a 4th connection attempt is issued — and is still
in the processing state with `retryCount = 3`, not in a terminal error
state. -/
theorem c2_counterexample :
    (runS 3 initState (exhaustSteps 3)).sockets.length = 4 ∧
    (runS 3 initState (exhaustSteps 3)).isProcessing = true ∧
    liveCount (runS 3 initState (exhaustSteps 3)) = 1 ∧
    (runS 3 initState (exhaustSteps 3)).retryCount = 3 := by decide

/-- Claim C2, amended.  With `maxRetries = N`, the terminal failure is
reached after `N + 1` consecutive unexpected closures (the initial
connection plus all `N` scheduled retries failing): the final state has
`isProcessing = false`, no referenced socket, no pending reconnect, a
reset retry counter, and exactly `N + 1` created sockets, all closed. -/
theorem c2_amended (N : Nat) :
    runS N initState (exhaustTrace N) =
      ⟨false, 0, 0, none, List.replicate (N + 1) .closed, 0, 0⟩ := by
  rw [exhaustTrace, runS_append, runS_exhaustSteps N N le_rfl]
  simp [runS, step, exhaustMid, replicate_append_get_last, onClose,
    replicate_append_set_last, cleanup, List.replicate_succ']

/-- Claim C3: every open event — including reopens after a recovered
disconnection — issues the process-project HTTP trigger again, and an
attempt that survives `k` recovered disconnections sends the trigger
`k + 1` times. -/
theorem c3_trigger_on_every_open :
    (∀ (m : Nat) (s : ClientState) (i : Nat),
      s.sockets[i]? = some .connecting →
      ClientAction.triggerSend ∈ (step m s (.openEvt i)).2) ∧
    (∀ m k, 1 ≤ m →
      (runA m initState (recTrace k)).countP ClientAction.isTriggerSend
        = k + 1) := by
  constructor
  · intro m s i h
    simp [step, h, onOpen]
  · exact fun m k hm => runA_recTrace_triggers m k hm

/-- Claim C3, witness at concrete inputs. -/
theorem c3_witness :
    ClientAction.triggerSend ∈
      (step 3 ⟨true, 0, 0, some 0, [.connecting], 0, 0⟩ (.openEvt 0)).2 ∧
    (runA 3 initState (recTrace 2)).countP ClientAction.isTriggerSend
      = 2 + 1 :=
  ⟨c3_trigger_on_every_open.1 3 ⟨true, 0, 0, some 0, [.connecting], 0, 0⟩ 0
      (by decide),
   c3_trigger_on_every_open.2 3 2 (by decide)⟩

/-- Claim C4, counterexample.  In the happy-path scenario the client does
complete (success is signalled and navigation is emitted), but its final
`progress` value is 0, not 100: the `completed` branch calls `cleanup`,
which resets `progress` to 0 right after it was set to 100. -/
theorem c4_counterexample :
    (runS 3 initState happyTrace).progress = 0 ∧
    (runS 3 initState happyTrace).progress ≠ 100 ∧
    ClientAction.navigateDetails ∈ runA 3 initState happyTrace := by decide

/-- Claim C4, amended.  In the happy-path scenario the client ends the
attempt completed — success toast and navigation emitted, socket closed,
`isProcessing` false, counters reset — with `progress` reset to 0 by the
terminal cleanup (it held 100 only transiently). -/
theorem c4_amended :
    runS 3 initState happyTrace = ⟨false, 0, 0, none, [.closed], 0, 0⟩ ∧
    runA 3 initState happyTrace =
      [.toastConnected, .triggerSend, .toastStarted, .toastProgress,
       .toastProgress, .toastSuccess, .navigateDetails] := by decide

/-- Claim C5: while listening, a well-formed terminal event (`completed`
or `error`) fully resets the attempt's connection state — the socket is
closed and de-referenced, `isProcessing` becomes false, the retry counter
and progress are cleared — and the outcome is signalled to the caller
(success toast plus navigation for `completed`, error toast for
`error`). -/
theorem c5_terminal_event_resets_connection_state (m : Nat)
    (s : ClientState) (i : Nat) (msg : ProcessingMessage)
    (href : s.socketRef = some i) (hopen : s.sockets[i]? = some .opened)
    (hterm : msg.status = .completed ∨ msg.status = .error) :
    (step m s (.msgEvt i (.wellFormed msg))).1.socketRef = none ∧
    (step m s (.msgEvt i (.wellFormed msg))).1.isProcessing = false ∧
    (step m s (.msgEvt i (.wellFormed msg))).1.retryCount = 0 ∧
    (step m s (.msgEvt i (.wellFormed msg))).1.progress = 0 ∧
    (step m s (.msgEvt i (.wellFormed msg))).1.sockets[i]? = some .closed ∧
    (msg.status = .completed →
      (step m s (.msgEvt i (.wellFormed msg))).2 =
        [.toastSuccess, .navigateDetails]) ∧
    (msg.status = .error →
      (step m s (.msgEvt i (.wellFormed msg))).2 = [.toastProcessFailed]) := by
  have hlt : i < s.sockets.length := by
    by_contra hle
    rw [List.getElem?_eq_none (Nat.le_of_not_lt hle)] at hopen
    exact Option.noConfusion hopen
  rcases msg with ⟨pid, st, txt, prog⟩
  rcases hterm with h | h <;> (simp only at h; subst h) <;>
    simp [step, hopen, handleMessage, parseMessage, cleanup, href,
      List.getElem?_set_self', hlt]

/-- Claim C5, witness at a concrete listening state and terminal events. -/
theorem c5_witness :
    ((step 3 ⟨true, 60, 0, some 0, [.opened], 0, 0⟩
        (.msgEvt 0 (.wellFormed ⟨42, .completed, "Done", 100⟩))).1.socketRef
      = none) ∧
    ((step 3 ⟨true, 60, 0, some 0, [.opened], 0, 0⟩
        (.msgEvt 0 (.wellFormed ⟨42, .completed, "Done", 100⟩))).1.isProcessing
      = false) :=
  ⟨(c5_terminal_event_resets_connection_state 3
      ⟨true, 60, 0, some 0, [.opened], 0, 0⟩ 0 ⟨42, .completed, "Done", 100⟩
      rfl (by decide) (Or.inl rfl)).1,
   (c5_terminal_event_resets_connection_state 3
      ⟨true, 60, 0, some 0, [.opened], 0, 0⟩ 0 ⟨42, .completed, "Done", 100⟩
      rfl (by decide) (Or.inl rfl)).2.1⟩

/-- Claim C6: whenever the open event fires (on a connecting socket), the
client's retry counter is reset to 0 — only consecutive failures without
an intervening successful open can accumulate toward the bound. -/
theorem c6_open_resets_retry_counter (m : Nat) (s : ClientState) (i : Nat)
    (h : s.sockets[i]? = some .connecting) :
    ((step m s (.openEvt i)).1).retryCount = 0 := by
  simp [step, h, onOpen]

/-- Claim C6, witness: an open event on a state with retry count 2. -/
theorem c6_witness :
    ((step 3 ⟨true, 10, 2, some 0, [.connecting], 0, 0⟩
      (.openEvt 0)).1).retryCount = 0 :=
  c6_open_resets_retry_counter 3 ⟨true, 10, 2, some 0, [.connecting], 0, 0⟩ 0
    (by decide)

/-- Claim C7: a text frame whose payload is not valid JSON parses to
`none` and the message handler discards it without changing any state and
without emitting anything; consequently inserting such a frame anywhere in
an event sequence changes neither the final state nor the emitted actions,
so a subsequent well-formed `completed` event is processed exactly as it
would have been. -/
theorem c7_malformed_frames_discarded :
    (∀ raw, parseMessage (.malformed raw) = none) ∧
    (∀ (m : Nat) (s : ClientState) (i : Nat) raw,
      step m s (.msgEvt i (.malformed raw)) = (s, [])) ∧
    (∀ (m : Nat) (s : ClientState) (es1 es2 : List Event) (i : Nat) raw,
      runS m s (es1 ++ .msgEvt i (.malformed raw) :: es2) =
        runS m s (es1 ++ es2) ∧
      runA m s (es1 ++ .msgEvt i (.malformed raw) :: es2) =
        runA m s (es1 ++ es2)) := by
  have hstep : ∀ (m : Nat) (s : ClientState) (i : Nat) raw,
      step m s (.msgEvt i (.malformed raw)) = (s, []) := by
    intro m s i raw
    rcases hg : s.sockets[i]? with _ | ph
    · simp [step, hg]
    · cases ph <;> simp [step, hg, handleMessage, parseMessage]
  refine ⟨fun raw => rfl, hstep, ?_⟩
  intro m s es1 es2 i raw
  constructor
  · rw [runS_append, runS_append]
    simp [runS, hstep]
  · rw [runA_append, runA_append]
    simp [runA, hstep]

/-- Claim C8, counterexample.  The claim says the client never holds more
than one live socket, any prior handle being closed or made inert before a
new connecting phase.  Concretely false: open, unexpected close (a retry
timer is scheduled), the trigger's HTTP error response runs `cleanup`
(which does not cancel the timer), the user starts again, and the stale
timer then fires — leaving two live sockets at once while processing. -/
theorem c8_counterexample :
    liveCount (runS 3 initState staleTimerTrace) = 2 ∧
    (runS 3 initState staleTimerTrace).isProcessing = true := by decide

/-- Claim C8, amended.  In every execution that contains no failed
process-project trigger, the client holds at most one live socket; and a
new connecting phase supersedes the prior handle only by overwriting the
reference — `connectSocket` leaves every existing socket's phase
untouched (it closes nothing).  The at-most-one-live invariant can break
only through a trigger-failure `cleanup`, whose scheduled retry timer
survives and can fire after a restart. -/
theorem c8_at_most_one_live_socket_amended :
    (∀ (m : Nat) (es : List Event), (∀ e ∈ es, e ≠ Event.trigErr) →
      liveCount (runS m initState es) ≤ 1) ∧
    (∀ (s : ClientState) (i : Nat) (ph : SockPhase),
      s.sockets[i]? = some ph → (connectSocket s).sockets[i]? = some ph) := by
  constructor
  · intro m es he
    exact liveCount_le_one_of_ConnInv _
      (ConnInv_runS m initState es ConnInv_initState he)
  · intro s i ph hg
    have hlt : i < s.sockets.length := by
      by_contra hle
      rw [List.getElem?_eq_none (Nat.le_of_not_lt hle)] at hg
      exact Option.noConfusion hg
    simp [connectSocket, List.getElem?_append, hlt, hg]

/-- Claim C8, witness for the amended theorem at concrete inputs. -/
theorem c8_witness :
    liveCount (runS 3 initState [.start, .openEvt 0]) ≤ 1 ∧
    (connectSocket ⟨true, 0, 0, some 0, [.connecting], 0, 0⟩).sockets[0]?
      = some .connecting :=
  ⟨c8_at_most_one_live_socket_amended.1 3 [.start, .openEvt 0] (by decide),
   c8_at_most_one_live_socket_amended.2
     ⟨true, 0, 0, some 0, [.connecting], 0, 0⟩ 0 .connecting (by decide)⟩

/-- Claim C9: `cleanup` is idempotent — running it a second time leaves
the state (socket handle, `isProcessing`, `progress`, `retryCount`)
exactly as the first call left it, and `cleanup` emits no events at all,
so no duplicate events can arise. -/
theorem c9_cleanup_idempotent (s : ClientState) :
    cleanup (cleanup s) = cleanup s := by
  simp [cleanup]

/-- Claim C10 (spec-modelled backend): every job run publishes zero or
more `processing` events followed by exactly one terminal event
(`completed` or `error`) and nothing after it. -/
theorem c10_one_terminal_event_per_run (pid : Int)
    (steps : List (String × Int × Bool)) :
    ∃ pre t, runJob pid steps = pre ++ [t] ∧
      (∀ e ∈ pre, e.status = .processing) ∧
      (t.status = .completed ∨ t.status = .error) := by
  induction steps with
  | nil =>
    exact ⟨[], ⟨pid, .completed, "Processing completed", 100⟩, rfl,
      by simp, Or.inl rfl⟩
  | cons hd rest ih =>
    rcases hd with ⟨msg, prog, ok⟩
    cases ok with
    | false => exact ⟨[], ⟨pid, .error, msg, prog⟩, rfl, by simp, Or.inr rfl⟩
    | true =>
      obtain ⟨pre, t, heq, hpre, ht⟩ := ih
      refine ⟨⟨pid, .processing, msg, prog⟩ :: pre, t, ?_, ?_, ht⟩
      · simp [runJob, heq]
      · intro e he
        rcases List.mem_cons.mp he with rfl | he
        · rfl
        · exact hpre e he
